import Mathlib

/-!
Shallow embedding of the 2D platformer repository's simulation core.

Sources embedded here:
- src/main.cpp   : constants, LEVEL_DATA, getTile, Player::update (timers,
  horizontal movement, jump buffering/coyote gate, gravity, tile collision
  sweep, state machine) and the accumulator step of the main loop.
- src/dash.cpp   : the per-tick player update of the dash demo (game.cpp's
  tick is line-for-line the same logic), its frame-time clamp, and its
  camera-follow step (identical in game.cpp, parallax.cpp, fullgame.cpp,
  enemy.cpp).
- src/fullgame.cpp : its unclamped accumulator step (same as main.cpp's).

Floats are modelled as exact rationals; every constant in the sources
(1/60, 0.09, 0.1, 0.16, 0.25, 0.45, 0.65, ...) is an exact decimal, so the
arithmetic structure of the code is preserved while rounding is abstracted.
The C cast (int) on a float truncates toward zero and is modelled by cint.
The tile query is passed as a function parameter, mirroring the spec's view
of the core ("consumes only an abstract input snapshot and a tile-lookup
function"); the concrete getTile of main.cpp is one instantiation.
std::sqrt appears only in the dash-direction normalisation of dash.cpp;
its result never influences any property claimed here, so the dash step is
parameterised by the sqrt interpretation and every theorem about it holds
for all interpretations.
-/

namespace Platformer

/-- Deterministic timestep, main.cpp line 23. -/
def FIXED_DT : ℚ := 1 / 60

/-- Tile edge length in pixels, main.cpp line 24. -/
def TILE_SIZE : ℤ := 16

/-- Gravity, main.cpp line 27. -/
def GRAVITY : ℚ := 2100

/-- Maximum horizontal speed, main.cpp line 28. -/
def MAX_RUN_SPEED : ℚ := 220

/-- Ground acceleration, main.cpp line 29. -/
def GROUND_ACCEL : ℚ := 2400

/-- Ground deceleration, main.cpp line 30. -/
def GROUND_DECEL : ℚ := 2800

/-- Air acceleration, main.cpp line 31. -/
def AIR_ACCEL : ℚ := 1400

/-- Air deceleration, main.cpp line 32. -/
def AIR_DECEL : ℚ := 1000

/-- Primary jump launch velocity, main.cpp line 33. -/
def JUMP_V0 : ℚ := -620

/-- Player hitbox width, main.cpp line 53. -/
def PLAYER_W : ℤ := 22

/-- Player hitbox height, main.cpp line 54. -/
def PLAYER_H : ℤ := 32

/-- Level width in tiles, main.cpp line 80. -/
def LEVEL_WIDTH : ℤ := 32

/-- Level height in tiles, main.cpp line 81. -/
def LEVEL_HEIGHT : ℤ := 16

/-- C-style cast of a float to int: truncation toward zero. -/
def cint (q : ℚ) : ℤ := if q < 0 then ⌈q⌉ else ⌊q⌋

/-- Two-dimensional vector, main.cpp lines 46-48. -/
structure Vec2 where
  x : ℚ
  y : ℚ
deriving DecidableEq, Repr

/-- Movement state machine, main.cpp lines 65-76. -/
inductive PlayerState where
  | Idle
  | Run
  | JumpRise
  | JumpApex
  | Fall
  | Land
  | Dash
  | Hurt
  | Dead
deriving DecidableEq, Repr

/-- Player body state, main.cpp lines 100-106. -/
structure Player where
  position : Vec2
  velocity : Vec2
  state : PlayerState
  onGround : Bool
  jumpBufferTimer : ℚ
  coyoteTimer : ℚ
deriving DecidableEq, Repr

/-- Keyboard intents sampled once per tick, main.cpp lines 114-117. -/
structure Input where
  left : Bool
  right : Bool
  jump : Bool
deriving DecidableEq, Repr

/-- Level data generated at main.cpp lines 82-91: index y*LEVEL_WIDTH+x holds
1 exactly on the bottom row (y = 15), 0 elsewhere. -/
def LEVEL_DATA (i : ℕ) : ℕ := if i / 32 = 15 then 1 else 0

/-- Tile sampler of main.cpp lines 94-97: out-of-range coordinates are
solid, in-range coordinates index LEVEL_DATA. -/
def getTile (x y : ℤ) : ℕ :=
  if x < 0 ∨ y < 0 ∨ LEVEL_WIDTH ≤ x ∨ LEVEL_HEIGHT ≤ y then 1
  else LEVEL_DATA (y * LEVEL_WIDTH + x).toNat

/-- Timer advance, main.cpp lines 110-111: each timer is decremented only
while strictly positive. -/
def tickTimers (dt : ℚ) (s : Player) : Player :=
  { s with
    jumpBufferTimer :=
      if 0 < s.jumpBufferTimer then s.jumpBufferTimer - dt else s.jumpBufferTimer
    coyoteTimer :=
      if 0 < s.coyoteTimer then s.coyoteTimer - dt else s.coyoteTimer }

/-- Horizontal movement, main.cpp lines 119-142: accelerate when exactly one
direction is held, otherwise apply the raw deceleration (with no clamp at the
sign change), then clamp to the run-speed band. -/
def horiz (inp : Input) (dt : ℚ) (s : Player) : Player :=
  let desiredAccel : ℚ :=
    if xor inp.left inp.right then
      (if inp.left then -1 else 1) * (if s.onGround then GROUND_ACCEL else AIR_ACCEL)
    else if s.onGround then
      if 0 < s.velocity.x then -GROUND_DECEL
      else if s.velocity.x < 0 then GROUND_DECEL
      else 0
    else
      if 0 < s.velocity.x then -AIR_DECEL
      else if s.velocity.x < 0 then AIR_DECEL
      else 0
  let vx0 := s.velocity.x + desiredAccel * dt
  let vx1 := if MAX_RUN_SPEED < vx0 then MAX_RUN_SPEED else vx0
  let vx2 := if vx1 < -MAX_RUN_SPEED then -MAX_RUN_SPEED else vx1
  { s with velocity := { s.velocity with x := vx2 } }

/-- Jump buffering, main.cpp lines 145-147: a held jump key refills the
90 ms buffer. -/
def bufferSet (inp : Input) (s : Player) : Player :=
  if inp.jump then { s with jumpBufferTimer := 9 / 100 } else s

/-- Gate condition of main.cpp line 148. -/
def gateOpen (s : Player) : Prop :=
  0 < s.jumpBufferTimer ∧ (s.onGround = true ∨ 0 < s.coyoteTimer)

instance (s : Player) : Decidable (gateOpen s) := by
  unfold gateOpen
  infer_instance

/-- Jump launch, main.cpp lines 148-154. -/
def jumpGate (s : Player) : Player :=
  if gateOpen s then
    { s with velocity := { s.velocity with y := JUMP_V0 }
             onGround := false
             jumpBufferTimer := 0
             coyoteTimer := 0 }
  else s

/-- Gravity application, main.cpp line 157. -/
def gravityStep (dt : ℚ) (s : Player) : Player :=
  { s with velocity := { s.velocity with y := s.velocity.y + GRAVITY * dt } }

/-- Candidate X after integration, main.cpp line 160. -/
def newPosX (dt : ℚ) (s : Player) : ℚ := s.position.x + s.velocity.x * dt

/-- Candidate Y after integration, main.cpp line 161. -/
def newPosY (dt : ℚ) (s : Player) : ℚ := s.position.y + s.velocity.y * dt

/-- Landing row of the downward sweep, main.cpp line 167. -/
def bottomRow (dt : ℚ) (s : Player) : ℤ :=
  cint ((newPosY dt s + (PLAYER_H : ℚ)) / (TILE_SIZE : ℚ))

/-- Leftmost covered column, main.cpp line 168. -/
def leftCol (dt : ℚ) (s : Player) : ℤ :=
  cint (newPosX dt s / (TILE_SIZE : ℚ))

/-- Rightmost covered column, main.cpp line 169. -/
def rightCol (dt : ℚ) (s : Player) : ℤ :=
  cint ((newPosX dt s + (PLAYER_W : ℚ) - 1) / (TILE_SIZE : ℚ))

/-- Loop of main.cpp lines 171-176: is any tile of the given row between the
two columns solid? -/
def anySolidRow (tile : ℤ → ℤ → ℕ) (a b y : ℤ) : Bool :=
  decide (∃ x ∈ Finset.Icc a b, tile x y = 1)

/-- Loops of main.cpp lines 194-199 and 207-212: is any tile of the given
column between the two rows solid? -/
def anySolidCol (tile : ℤ → ℤ → ℕ) (a b x : ℤ) : Bool :=
  decide (∃ y ∈ Finset.Icc a b, tile x y = 1)

/-- Collision resolution and position commit, main.cpp lines 159-219:
vertical sweep first (snap to the tile boundary, zero the fall speed, set
onGround and refresh the coyote timer), then the horizontal sweep against
the possibly snapped Y, then commit. -/
def collide (tile : ℤ → ℤ → ℕ) (dt : ℚ) (s : Player) : Player :=
  let newX0 := newPosX dt s
  let ySnap : Prop :=
    0 < s.velocity.y ∧ anySolidRow tile (leftCol dt s) (rightCol dt s) (bottomRow dt s) = true
  let newY :=
    if ySnap then ((bottomRow dt s * TILE_SIZE - PLAYER_H : ℤ) : ℚ) else newPosY dt s
  let vy := if ySnap then 0 else s.velocity.y
  let og := if ySnap then true else s.onGround
  let coy := if ySnap then 1 / 10 else s.coyoteTimer
  let top := cint (newY / (TILE_SIZE : ℚ))
  let bottomY := cint ((newY + (PLAYER_H : ℚ) - 1) / (TILE_SIZE : ℚ))
  let rightLead := cint ((newX0 + (PLAYER_W : ℚ)) / (TILE_SIZE : ℚ))
  let leftLead := cint (newX0 / (TILE_SIZE : ℚ))
  let xSnapR : Prop := 0 < s.velocity.x ∧ anySolidCol tile top bottomY rightLead = true
  let xSnapL : Prop := s.velocity.x < 0 ∧ anySolidCol tile top bottomY leftLead = true
  let newX :=
    if xSnapR then ((rightLead * TILE_SIZE - PLAYER_W : ℤ) : ℚ)
    else if xSnapL then (((leftLead + 1) * TILE_SIZE : ℤ) : ℚ)
    else newX0
  let vx := if xSnapR ∨ xSnapL then 0 else s.velocity.x
  { s with position := ⟨newX, newY⟩
           velocity := ⟨vx, vy⟩
           onGround := og
           coyoteTimer := coy }

/-- State re-derivation, main.cpp lines 222-230. -/
def deriveState (s : Player) : Player :=
  if s.onGround = false then
    { s with state := if s.velocity.y < 0 then PlayerState.JumpRise else PlayerState.Fall }
  else
    { s with state := if 1 < |s.velocity.x| then PlayerState.Run else PlayerState.Idle }

/-- State as seen by the jump gate: timers advanced, horizontal movement
applied, buffer possibly refilled (main.cpp lines 110-147). -/
def gateState (inp : Input) (dt : ℚ) (s : Player) : Player :=
  bufferSet inp (horiz inp dt (tickTimers dt s))

/-- Player::update of main.cpp lines 108-231, over an arbitrary tile world. -/
def updateWith (tile : ℤ → ℤ → ℕ) (inp : Input) (dt : ℚ) (s : Player) : Player :=
  deriveState (collide tile dt (gravityStep dt (jumpGate (gateState inp dt s))))

/-- Player::update against the level baked into main.cpp. -/
def update (inp : Input) (dt : ℚ) (s : Player) : Player :=
  updateWith getTile inp dt s

/-- Does the jump gate of main.cpp line 148 fire during this tick? -/
def firesAt (inp : Input) (dt : ℚ) (s : Player) : Bool :=
  decide (gateOpen (gateState inp dt s))

/-- Iterated ticks, one input per tick. -/
def run (tile : ℤ → ℤ → ℕ) (dt : ℚ) : Player → List Input → Player
  | s, [] => s
  | s, i :: l => run tile dt (updateWith tile i dt s) l

/-- Number of ticks of a run at which the jump gate fires. -/
def countFires (tile : ℤ → ℤ → ℕ) (dt : ℚ) : Player → List Input → ℕ
  | _, [] => 0
  | s, i :: l =>
      (if firesAt i dt s then 1 else 0) + countFires tile dt (updateWith tile i dt s) l

/-- Input snapshot with no key held. -/
def inpNone : Input := ⟨false, false, false⟩

/-- Input snapshot with only right held. -/
def inpR : Input := ⟨false, true, false⟩

/-- Input snapshot with right and jump held. -/
def inpRJ : Input := ⟨false, true, true⟩

/-- Tile world consisting of a single solid platform: row 8 is solid for
columns up to 6, everything else is air.  Walking right across column 6
steps off the platform edge. -/
def wEdge (x y : ℤ) : ℕ := if y = 8 ∧ x ≤ 6 then 1 else 0

/-- Player standing on the wEdge platform near its edge, running right at
full speed, freshly grounded (coyote timer refreshed by the landing snap). -/
def sE0 : Player := ⟨⟨104, 96⟩, ⟨220, 0⟩, PlayerState.Run, true, 0, 1 / 10⟩

/-- Input snapshot with only jump held. -/
def inpJ : Input := ⟨false, false, true⟩

/-- Player at rest on the solid bottom row of the baked-in level, lower edge
exactly on the tile boundary (208 + 32 = 240 = 15 * 16). -/
def restS : Player := ⟨⟨100, 208⟩, ⟨0, 0⟩, PlayerState.Idle, true, 0, 0⟩

/-- Grounded player with a small rightward speed and no key held; input to
the deceleration branch of main.cpp lines 124-137. -/
def decelS : Player := ⟨⟨100, 208⟩, ⟨10, 0⟩, PlayerState.Idle, true, 0, 0⟩

/-- Airborne player a half tile above the solid bottom row, about to land
on it within one tick. -/
def c2S : Player := ⟨⟨100, 415 / 2⟩, ⟨0, 0⟩, PlayerState.Fall, false, 0, 0⟩

/-- Airborne player with both jump timers expired. -/
def sAir : Player := ⟨⟨100, 100⟩, ⟨0, 0⟩, PlayerState.Fall, false, 0, 0⟩

end Platformer

namespace Dash

/-- Fixed timestep of dash.cpp line 11. -/
def DT : ℚ := 1 / 60

/-- Player state of dash.cpp lines 14-23 (same struct in game.cpp). -/
structure Player where
  x : ℚ
  y : ℚ
  vx : ℚ
  vy : ℚ
  onGround : Bool
  dashing : Bool
  dashTimer : ℚ
  dashCooldown : ℚ
  dashDirX : ℚ
  dashDirY : ℚ
deriving DecidableEq, Repr

/-- Keyboard intents read by the dash demo tick. -/
structure Keys where
  left : Bool
  right : Bool
  up : Bool
  down : Bool
  jump : Bool
  dash : Bool
deriving DecidableEq, Repr

/-- Horizontal movement while not dashing, dash.cpp lines 67-94: accelerate
toward the held direction with clamp to the run band, otherwise decelerate
with an explicit clamp at the sign change. -/
def move (k : Keys) (p : Player) : Player :=
  if p.dashing = true then p
  else
    let target : ℚ := (if k.left then -1 else 0) + (if k.right then 1 else 0)
    if target ≠ 0 then
      let vx0 := p.vx + target * 2400 * DT
      let vx1 := if 220 < vx0 then 220 else vx0
      let vx2 := if vx1 < -220 then -220 else vx1
      { p with vx := vx2 }
    else if 0 < p.vx then
      let vx0 := p.vx - 2800 * DT
      { p with vx := if vx0 < 0 then 0 else vx0 }
    else if p.vx < 0 then
      let vx0 := p.vx + 2800 * DT
      { p with vx := if 0 < vx0 then 0 else vx0 }
    else p

/-- Simple grounded jump, dash.cpp lines 96-100. -/
def jumpStep (k : Keys) (p : Player) : Player :=
  if p.dashing = false ∧ p.onGround = true ∧ k.jump = true then
    { p with vy := -620, onGround := false }
  else p

/-- Gravity with terminal fall speed, dash.cpp lines 102-107. -/
def gravity (p : Player) : Player :=
  if p.onGround = true then p
  else
    let vy0 := p.vy + 2100 * DT
    { p with vy := if 900 < vy0 then 900 else vy0 }

/-- Dash start, dash.cpp lines 109-135: admitted only when not dashing and
the cooldown has expired; sets the dash flag, the 0.16 s dash timer, the
0.45 s (grounded) or 0.65 s (airborne) cooldown and the normalised dash
direction.  The sqrt used by the normalisation is passed in as sq. -/
def dashStart (sq : ℚ → ℚ) (k : Keys) (p : Player) : Player :=
  if p.dashing = false ∧ p.dashCooldown ≤ 0 ∧ k.dash = true then
    let dirY : ℚ := (if k.up then -1 else 0) + (if k.down then 1 else 0)
    let dirX0 : ℚ := (if k.left then -1 else 0) + (if k.right then 1 else 0)
    let dirX1 := if dirX0 = 0 ∧ dirY = 0 then (if 0 ≤ p.vx then 1 else -1) else dirX0
    let len := sq (dirX1 * dirX1 + dirY * dirY)
    { p with dashing := true
             dashTimer := 16 / 100
             dashCooldown := if p.onGround = true then 45 / 100 else 65 / 100
             dashDirX := if len ≠ 0 then dirX1 / len else dirX1
             dashDirY := if len ≠ 0 then dirY / len else dirY }
  else p

/-- Dash state update, dash.cpp lines 137-155: while the dash timer runs the
velocity is the fixed dash velocity and the cooldown is left untouched; when
the timer expires the dash ends with residual momentum; the cooldown is
decremented only while not dashing. -/
def dashUpdate (p : Player) : Player :=
  if p.dashing = true then
    let t := p.dashTimer - DT
    if 0 < t then
      { p with dashTimer := t, vx := p.dashDirX * 480, vy := p.dashDirY * 480 }
    else
      { p with dashTimer := t
               dashing := false
               vx := p.dashDirX * 120
               vy := if 0 < p.dashDirY then 0 else p.vy }
  else if 0 < p.dashCooldown then { p with dashCooldown := p.dashCooldown - DT }
  else p

/-- Position integration, dash.cpp lines 157-159. -/
def integrate (p : Player) : Player :=
  { p with x := p.x + p.vx * DT, y := p.y + p.vy * DT }

/-- Flat-floor collision, dash.cpp lines 161-168. -/
def floorCollide (p : Player) : Player :=
  if 240 ≤ p.y then { p with y := 240, vy := 0, onGround := true }
  else { p with onGround := false }

/-- World bounds, dash.cpp lines 170-172. -/
def bounds (p : Player) : Player :=
  let x0 := if p.x < 0 then 0 else p.x
  { p with x := if 1024 < x0 then 1024 else x0 }

/-- One simulation tick of dash.cpp lines 66-179 (player portion; game.cpp
lines 76-195 run the same player logic). -/
def step (sq : ℚ → ℚ) (k : Keys) (p : Player) : Player :=
  bounds (floorCollide (integrate (dashUpdate (dashStart sq k (gravity (jumpStep k (move k p)))))))

/-- Initial player of dash.cpp lines 37-38. -/
def init : Player := ⟨240, 220, 0, 0, true, false, 0, 0, 0, 0⟩

/-- Keys with right and the dash button held. -/
def kDashR : Keys := ⟨false, true, false, false, false, true⟩

/-- Iterated ticks of the dash demo. -/
def runD (sq : ℚ → ℚ) : Player → List Keys → Player
  | p, [] => p
  | p, k :: l => runD sq (step sq k p) l

/-- Camera target, dash.cpp line 175: center the player horizontally
(identical in game.cpp line 192, parallax.cpp line 100, fullgame.cpp
line 170, enemy.cpp line 144; SCREEN_W = NATIVE_W = 480 everywhere). -/
def cameraTarget (px : ℚ) : ℚ := px - 480 * (1 / 2)

/-- Camera follow step, dash.cpp line 176: move one tenth of the way toward
the target, with no further processing (identical in game.cpp line 193,
parallax.cpp line 103, fullgame.cpp line 171, enemy.cpp line 145). -/
def cameraStep (cameraX targetCam : ℚ) : ℚ := cameraX + (targetCam - cameraX) * (1 / 10)

/-- Frame-time clamp of dash.cpp line 53 (same in game.cpp line 66,
parallax.cpp line 72, enemy.cpp line 50). -/
def frameClamp (frameTime : ℚ) : ℚ := if 1 / 4 < frameTime then 1 / 4 else frameTime

/-- Accumulator update of the clamped loops: dash.cpp lines 52-55. -/
def accumulateClamped (acc frameTime : ℚ) : ℚ := acc + frameClamp frameTime

/-- Accumulator update of main.cpp lines 283-285 and fullgame.cpp lines
66-68: the measured frame time is added with no clamp. -/
def accumulateUnclamped (acc frameTime : ℚ) : ℚ := acc + frameTime

end Dash

namespace Platformer

@[simp]
lemma tickTimers_onGround (dt : ℚ) (s : Player) : (tickTimers dt s).onGround = s.onGround := rfl

@[simp]
lemma tickTimers_jumpBufferTimer (dt : ℚ) (s : Player) :
    (tickTimers dt s).jumpBufferTimer =
      if 0 < s.jumpBufferTimer then s.jumpBufferTimer - dt else s.jumpBufferTimer := rfl

@[simp]
lemma tickTimers_coyoteTimer (dt : ℚ) (s : Player) :
    (tickTimers dt s).coyoteTimer =
      if 0 < s.coyoteTimer then s.coyoteTimer - dt else s.coyoteTimer := rfl

@[simp]
lemma horiz_onGround (inp : Input) (dt : ℚ) (s : Player) :
    (horiz inp dt s).onGround = s.onGround := rfl

@[simp]
lemma horiz_jumpBufferTimer (inp : Input) (dt : ℚ) (s : Player) :
    (horiz inp dt s).jumpBufferTimer = s.jumpBufferTimer := rfl

@[simp]
lemma horiz_coyoteTimer (inp : Input) (dt : ℚ) (s : Player) :
    (horiz inp dt s).coyoteTimer = s.coyoteTimer := rfl

@[simp]
lemma bufferSet_onGround (inp : Input) (s : Player) :
    (bufferSet inp s).onGround = s.onGround := by
  unfold bufferSet
  split <;> rfl

@[simp]
lemma bufferSet_coyoteTimer (inp : Input) (s : Player) :
    (bufferSet inp s).coyoteTimer = s.coyoteTimer := by
  unfold bufferSet
  split <;> rfl

@[simp]
lemma bufferSet_jumpBufferTimer (inp : Input) (s : Player) :
    (bufferSet inp s).jumpBufferTimer =
      if inp.jump then 9 / 100 else s.jumpBufferTimer := by
  unfold bufferSet
  split <;> simp_all

@[simp]
lemma gateState_onGround (inp : Input) (dt : ℚ) (s : Player) :
    (gateState inp dt s).onGround = s.onGround := by
  simp [gateState]

@[simp]
lemma gateState_coyoteTimer (inp : Input) (dt : ℚ) (s : Player) :
    (gateState inp dt s).coyoteTimer =
      if 0 < s.coyoteTimer then s.coyoteTimer - dt else s.coyoteTimer := by
  simp [gateState]

@[simp]
lemma gateState_jumpBufferTimer (inp : Input) (dt : ℚ) (s : Player) :
    (gateState inp dt s).jumpBufferTimer =
      if inp.jump then 9 / 100
      else if 0 < s.jumpBufferTimer then s.jumpBufferTimer - dt
      else s.jumpBufferTimer := by
  simp [gateState]

lemma jumpGate_of_open {s : Player} (h : gateOpen s) :
    jumpGate s =
      { s with velocity := { s.velocity with y := JUMP_V0 }
               onGround := false
               jumpBufferTimer := 0
               coyoteTimer := 0 } := by
  unfold jumpGate
  exact if_pos h

lemma jumpGate_of_closed {s : Player} (h : ¬gateOpen s) : jumpGate s = s := by
  unfold jumpGate
  exact if_neg h

@[simp]
lemma jumpGate_jumpBufferTimer (s : Player) :
    (jumpGate s).jumpBufferTimer = if gateOpen s then 0 else s.jumpBufferTimer := by
  unfold jumpGate
  split <;> simp_all

@[simp]
lemma gravityStep_onGround (dt : ℚ) (s : Player) :
    (gravityStep dt s).onGround = s.onGround := rfl

@[simp]
lemma gravityStep_jumpBufferTimer (dt : ℚ) (s : Player) :
    (gravityStep dt s).jumpBufferTimer = s.jumpBufferTimer := rfl

@[simp]
lemma gravityStep_position (dt : ℚ) (s : Player) :
    (gravityStep dt s).position = s.position := rfl

@[simp]
lemma collide_jumpBufferTimer (tile : ℤ → ℤ → ℕ) (dt : ℚ) (s : Player) :
    (collide tile dt s).jumpBufferTimer = s.jumpBufferTimer := rfl

@[simp]
lemma deriveState_position (s : Player) : (deriveState s).position = s.position := by
  unfold deriveState
  split <;> rfl

@[simp]
lemma deriveState_velocity (s : Player) : (deriveState s).velocity = s.velocity := by
  unfold deriveState
  split <;> rfl

@[simp]
lemma deriveState_onGround (s : Player) : (deriveState s).onGround = s.onGround := by
  unfold deriveState
  split <;> rfl

@[simp]
lemma deriveState_jumpBufferTimer (s : Player) :
    (deriveState s).jumpBufferTimer = s.jumpBufferTimer := by
  unfold deriveState
  split <;> rfl

@[simp]
lemma deriveState_coyoteTimer (s : Player) :
    (deriveState s).coyoteTimer = s.coyoteTimer := by
  unfold deriveState
  split <;> rfl

lemma updateWith_jumpBufferTimer (tile : ℤ → ℤ → ℕ) (inp : Input) (dt : ℚ) (s : Player) :
    (updateWith tile inp dt s).jumpBufferTimer =
      if gateOpen (gateState inp dt s) then 0 else (gateState inp dt s).jumpBufferTimer := by
  simp [updateWith]

lemma firesAt_false_of_nopress (inp : Input) (dt : ℚ) (s : Player)
    (hj : inp.jump = false) (hb : s.jumpBufferTimer ≤ 0) : firesAt inp dt s = false := by
  have hb' : ¬(0 < s.jumpBufferTimer) := not_lt.2 hb
  simp [firesAt, gateOpen, hj, hb']

lemma updateWith_buffer_nopress (tile : ℤ → ℤ → ℕ) (inp : Input) (dt : ℚ) (s : Player)
    (hj : inp.jump = false) (hb : s.jumpBufferTimer ≤ 0) :
    (updateWith tile inp dt s).jumpBufferTimer ≤ 0 := by
  have hb' : ¬(0 < s.jumpBufferTimer) := not_lt.2 hb
  simp [updateWith_jumpBufferTimer, gateOpen, hj, hb']
  exact hb

lemma updateWith_buffer_of_fire (tile : ℤ → ℤ → ℕ) (inp : Input) (dt : ℚ) (s : Player)
    (hf : firesAt inp dt s = true) : (updateWith tile inp dt s).jumpBufferTimer = 0 := by
  have h : gateOpen (gateState inp dt s) := of_decide_eq_true hf
  simp [updateWith_jumpBufferTimer, h]

lemma countFires_cons (tile : ℤ → ℤ → ℕ) (dt : ℚ) (s : Player) (i : Input) (l : List Input) :
    countFires tile dt s (i :: l) =
      (if firesAt i dt s then 1 else 0) + countFires tile dt (updateWith tile i dt s) l := rfl

lemma countFires_eq_zero (tile : ℤ → ℤ → ℕ) (dt : ℚ) (l : List Input) :
    ∀ s : Player, (∀ i ∈ l, i.jump = false) → s.jumpBufferTimer ≤ 0 →
      countFires tile dt s l = 0 := by
  induction l with
  | nil => intro s _ _; rfl
  | cons i l ih =>
    intro s hnp hb
    have hj : i.jump = false := hnp i (by simp)
    have h1 : firesAt i dt s = false := firesAt_false_of_nopress i dt s hj hb
    rw [countFires_cons, h1,
      ih _ (fun j hj2 => hnp j (by simp [hj2])) (updateWith_buffer_nopress tile i dt s hj hb)]
    simp

lemma countFires_le_one_nopress (tile : ℤ → ℤ → ℕ) (dt : ℚ) (l : List Input) :
    ∀ s : Player, (∀ i ∈ l, i.jump = false) → countFires tile dt s l ≤ 1 := by
  induction l with
  | nil => intro s _; simp [countFires]
  | cons i l ih =>
    intro s hnp
    have hnp' : ∀ j ∈ l, j.jump = false := fun j hj2 => hnp j (by simp [hj2])
    rw [countFires_cons]
    cases hf : firesAt i dt s with
    | false => simpa using ih _ hnp'
    | true =>
      rw [countFires_eq_zero tile dt l _ hnp'
        (le_of_eq (updateWith_buffer_of_fire tile i dt s hf))]
      simp

lemma countFires_le_one (tile : ℤ → ℤ → ℕ) (dt : ℚ) (l : List Input) :
    ∀ s : Player, s.jumpBufferTimer ≤ 0 → l.countP (fun i => i.jump) ≤ 1 →
      countFires tile dt s l ≤ 1 := by
  induction l with
  | nil => intro s _ _; simp [countFires]
  | cons i l ih =>
    intro s hb hc
    rw [List.countP_cons] at hc
    rw [countFires_cons]
    cases hj : i.jump with
    | false =>
      rw [firesAt_false_of_nopress i dt s hj hb]
      have hc' : l.countP (fun i => i.jump) ≤ 1 := by
        simp [hj] at hc
        exact hc
      simpa using ih _ (updateWith_buffer_nopress tile i dt s hj hb) hc'
    | true =>
      have hnp : ∀ j ∈ l, j.jump = false := by
        simp [hj] at hc
        exact hc
      cases hf : firesAt i dt s with
      | true =>
        rw [countFires_eq_zero tile dt l _ hnp
          (le_of_eq (updateWith_buffer_of_fire tile i dt s hf))]
        simp
      | false => simpa using countFires_le_one_nopress tile dt l _ hnp

lemma collide_of_snap (tile : ℤ → ℤ → ℕ) (dt : ℚ) (s : Player)
    (h1 : 0 < s.velocity.y)
    (h2 : anySolidRow tile (leftCol dt s) (rightCol dt s) (bottomRow dt s) = true) :
    (collide tile dt s).position.y = ((bottomRow dt s * TILE_SIZE - PLAYER_H : ℤ) : ℚ) ∧
    (collide tile dt s).velocity.y = 0 ∧
    (collide tile dt s).onGround = true ∧
    (collide tile dt s).coyoteTimer = 1 / 10 := by
  simp [collide, h1, h2]

lemma wEdge_eq_one (x y : ℤ) : wEdge x y = 1 ↔ (y = 8 ∧ x ≤ 6) := by
  unfold wEdge
  split <;> simp_all

lemma anySolidRow_wEdge (a b y : ℤ) :
    anySolidRow wEdge a b y = true ↔ (y = 8 ∧ a ≤ b ∧ a ≤ 6) := by
  simp only [anySolidRow, decide_eq_true_eq, Finset.mem_Icc, wEdge_eq_one]
  constructor
  · rintro ⟨x, ⟨hax, hxb⟩, hy, hx6⟩
    exact ⟨hy, le_trans hax hxb, le_trans hax hx6⟩
  · rintro ⟨hy, hab, ha6⟩
    exact ⟨a, ⟨le_refl a, hab⟩, hy, ha6⟩

lemma anySolidCol_wEdge (a b x : ℤ) :
    anySolidCol wEdge a b x = true ↔ (x ≤ 6 ∧ a ≤ 8 ∧ 8 ≤ b) := by
  simp only [anySolidCol, decide_eq_true_eq, Finset.mem_Icc, wEdge_eq_one]
  constructor
  · rintro ⟨y, ⟨hay, hyb⟩, hy8, hx6⟩
    subst hy8
    exact ⟨hx6, hay, hyb⟩
  · rintro ⟨hx6, ha8, h8b⟩
    exact ⟨8, ⟨ha8, h8b⟩, rfl, hx6⟩

lemma tickE1 : updateWith wEdge inpR FIXED_DT sE0 =
    ⟨⟨323 / 3, 96⟩, ⟨220, 0⟩, PlayerState.Run, true, 0, 1 / 10⟩ := by
  norm_num [updateWith, gateState, bufferSet, horiz, tickTimers, jumpGate, gateOpen,
    gravityStep, collide, deriveState, newPosX, newPosY, bottomRow, leftCol, rightCol,
    cint, FIXED_DT, GRAVITY, MAX_RUN_SPEED, GROUND_ACCEL, GROUND_DECEL, AIR_ACCEL,
    AIR_DECEL, JUMP_V0, PLAYER_W, PLAYER_H, TILE_SIZE, anySolidRow_wEdge,
    anySolidCol_wEdge, inpR, sE0]

lemma tickE2 : updateWith wEdge inpR FIXED_DT
      ⟨⟨323 / 3, 96⟩, ⟨220, 0⟩, PlayerState.Run, true, 0, 1 / 10⟩ =
    ⟨⟨334 / 3, 96⟩, ⟨220, 0⟩, PlayerState.Run, true, 0, 1 / 10⟩ := by
  norm_num [updateWith, gateState, bufferSet, horiz, tickTimers, jumpGate, gateOpen,
    gravityStep, collide, deriveState, newPosX, newPosY, bottomRow, leftCol, rightCol,
    cint, FIXED_DT, GRAVITY, MAX_RUN_SPEED, GROUND_ACCEL, GROUND_DECEL, AIR_ACCEL,
    AIR_DECEL, JUMP_V0, PLAYER_W, PLAYER_H, TILE_SIZE, anySolidRow_wEdge,
    anySolidCol_wEdge, inpR]

lemma tickE3 : updateWith wEdge inpR FIXED_DT
      ⟨⟨334 / 3, 96⟩, ⟨220, 0⟩, PlayerState.Run, true, 0, 1 / 10⟩ =
    ⟨⟨115, 1159 / 12⟩, ⟨220, 35⟩, PlayerState.Run, true, 0, 1 / 12⟩ := by
  norm_num [updateWith, gateState, bufferSet, horiz, tickTimers, jumpGate, gateOpen,
    gravityStep, collide, deriveState, newPosX, newPosY, bottomRow, leftCol, rightCol,
    cint, FIXED_DT, GRAVITY, MAX_RUN_SPEED, GROUND_ACCEL, GROUND_DECEL, AIR_ACCEL,
    AIR_DECEL, JUMP_V0, PLAYER_W, PLAYER_H, TILE_SIZE, anySolidRow_wEdge,
    anySolidCol_wEdge, inpR]

lemma tickE4 : updateWith wEdge inpR FIXED_DT
      ⟨⟨115, 1159 / 12⟩, ⟨220, 35⟩, PlayerState.Run, true, 0, 1 / 12⟩ =
    ⟨⟨356 / 3, 391 / 4⟩, ⟨220, 70⟩, PlayerState.Run, true, 0, 1 / 15⟩ := by
  norm_num [updateWith, gateState, bufferSet, horiz, tickTimers, jumpGate, gateOpen,
    gravityStep, collide, deriveState, newPosX, newPosY, bottomRow, leftCol, rightCol,
    cint, FIXED_DT, GRAVITY, MAX_RUN_SPEED, GROUND_ACCEL, GROUND_DECEL, AIR_ACCEL,
    AIR_DECEL, JUMP_V0, PLAYER_W, PLAYER_H, TILE_SIZE, anySolidRow_wEdge,
    anySolidCol_wEdge, inpR]

lemma tickE5 : updateWith wEdge inpR FIXED_DT
      ⟨⟨356 / 3, 391 / 4⟩, ⟨220, 70⟩, PlayerState.Run, true, 0, 1 / 15⟩ =
    ⟨⟨367 / 3, 199 / 2⟩, ⟨220, 105⟩, PlayerState.Run, true, 0, 1 / 20⟩ := by
  norm_num [updateWith, gateState, bufferSet, horiz, tickTimers, jumpGate, gateOpen,
    gravityStep, collide, deriveState, newPosX, newPosY, bottomRow, leftCol, rightCol,
    cint, FIXED_DT, GRAVITY, MAX_RUN_SPEED, GROUND_ACCEL, GROUND_DECEL, AIR_ACCEL,
    AIR_DECEL, JUMP_V0, PLAYER_W, PLAYER_H, TILE_SIZE, anySolidRow_wEdge,
    anySolidCol_wEdge, inpR]

lemma tickE6 : updateWith wEdge inpR FIXED_DT
      ⟨⟨367 / 3, 199 / 2⟩, ⟨220, 105⟩, PlayerState.Run, true, 0, 1 / 20⟩ =
    ⟨⟨126, 611 / 6⟩, ⟨220, 140⟩, PlayerState.Run, true, 0, 1 / 30⟩ := by
  norm_num [updateWith, gateState, bufferSet, horiz, tickTimers, jumpGate, gateOpen,
    gravityStep, collide, deriveState, newPosX, newPosY, bottomRow, leftCol, rightCol,
    cint, FIXED_DT, GRAVITY, MAX_RUN_SPEED, GROUND_ACCEL, GROUND_DECEL, AIR_ACCEL,
    AIR_DECEL, JUMP_V0, PLAYER_W, PLAYER_H, TILE_SIZE, anySolidRow_wEdge,
    anySolidCol_wEdge, inpR]

lemma tickE7 : updateWith wEdge inpR FIXED_DT
      ⟨⟨126, 611 / 6⟩, ⟨220, 140⟩, PlayerState.Run, true, 0, 1 / 30⟩ =
    ⟨⟨389 / 3, 419 / 4⟩, ⟨220, 175⟩, PlayerState.Run, true, 0, 1 / 60⟩ := by
  norm_num [updateWith, gateState, bufferSet, horiz, tickTimers, jumpGate, gateOpen,
    gravityStep, collide, deriveState, newPosX, newPosY, bottomRow, leftCol, rightCol,
    cint, FIXED_DT, GRAVITY, MAX_RUN_SPEED, GROUND_ACCEL, GROUND_DECEL, AIR_ACCEL,
    AIR_DECEL, JUMP_V0, PLAYER_W, PLAYER_H, TILE_SIZE, anySolidRow_wEdge,
    anySolidCol_wEdge, inpR]

lemma tickE8 : updateWith wEdge inpR FIXED_DT
      ⟨⟨389 / 3, 419 / 4⟩, ⟨220, 175⟩, PlayerState.Run, true, 0, 1 / 60⟩ =
    ⟨⟨400 / 3, 433 / 4⟩, ⟨220, 210⟩, PlayerState.Run, true, 0, 0⟩ := by
  norm_num [updateWith, gateState, bufferSet, horiz, tickTimers, jumpGate, gateOpen,
    gravityStep, collide, deriveState, newPosX, newPosY, bottomRow, leftCol, rightCol,
    cint, FIXED_DT, GRAVITY, MAX_RUN_SPEED, GROUND_ACCEL, GROUND_DECEL, AIR_ACCEL,
    AIR_DECEL, JUMP_V0, PLAYER_W, PLAYER_H, TILE_SIZE, anySolidRow_wEdge,
    anySolidCol_wEdge, inpR]

lemma runE3 : run wEdge FIXED_DT sE0 [inpR, inpR, inpR] =
    ⟨⟨115, 1159 / 12⟩, ⟨220, 35⟩, PlayerState.Run, true, 0, 1 / 12⟩ := by
  show updateWith wEdge inpR FIXED_DT
      (updateWith wEdge inpR FIXED_DT (updateWith wEdge inpR FIXED_DT sE0)) = _
  rw [tickE1, tickE2, tickE3]

lemma runE6 : run wEdge FIXED_DT sE0 [inpR, inpR, inpR, inpR, inpR, inpR] =
    ⟨⟨126, 611 / 6⟩, ⟨220, 140⟩, PlayerState.Run, true, 0, 1 / 30⟩ := by
  show updateWith wEdge inpR FIXED_DT (updateWith wEdge inpR FIXED_DT
      (updateWith wEdge inpR FIXED_DT (updateWith wEdge inpR FIXED_DT
        (updateWith wEdge inpR FIXED_DT (updateWith wEdge inpR FIXED_DT sE0))))) = _
  rw [tickE1, tickE2, tickE3, tickE4, tickE5, tickE6]

lemma runE8 : run wEdge FIXED_DT sE0 [inpR, inpR, inpR, inpR, inpR, inpR, inpR, inpR] =
    ⟨⟨400 / 3, 433 / 4⟩, ⟨220, 210⟩, PlayerState.Run, true, 0, 0⟩ := by
  show updateWith wEdge inpR FIXED_DT (updateWith wEdge inpR FIXED_DT
      (updateWith wEdge inpR FIXED_DT (updateWith wEdge inpR FIXED_DT
        (updateWith wEdge inpR FIXED_DT (updateWith wEdge inpR FIXED_DT
          (updateWith wEdge inpR FIXED_DT (updateWith wEdge inpR FIXED_DT sE0))))))) = _
  rw [tickE1, tickE2, tickE3, tickE4, tickE5, tickE6, tickE7, tickE8]

lemma firesE_T5 : firesAt inpRJ FIXED_DT
    ⟨⟨126, 611 / 6⟩, ⟨220, 140⟩, PlayerState.Run, true, 0, 1 / 30⟩ = true := by
  norm_num [firesAt, gateOpen, gateState, bufferSet, horiz, tickTimers, FIXED_DT,
    MAX_RUN_SPEED, GROUND_ACCEL, GROUND_DECEL, AIR_ACCEL, AIR_DECEL, inpRJ]

lemma firesE_T7 : firesAt inpRJ FIXED_DT
    ⟨⟨400 / 3, 433 / 4⟩, ⟨220, 210⟩, PlayerState.Run, true, 0, 0⟩ = true := by
  norm_num [firesAt, gateOpen, gateState, bufferSet, horiz, tickTimers, FIXED_DT,
    MAX_RUN_SPEED, GROUND_ACCEL, GROUND_DECEL, AIR_ACCEL, AIR_DECEL, inpRJ]

lemma tickE9J : updateWith wEdge inpRJ FIXED_DT
      ⟨⟨400 / 3, 433 / 4⟩, ⟨220, 210⟩, PlayerState.Run, true, 0, 0⟩ =
    ⟨⟨137, 197 / 2⟩, ⟨220, -585⟩, PlayerState.JumpRise, false, 0, 0⟩ := by
  norm_num [updateWith, gateState, bufferSet, horiz, tickTimers, jumpGate, gateOpen,
    gravityStep, collide, deriveState, newPosX, newPosY, bottomRow, leftCol, rightCol,
    cint, FIXED_DT, GRAVITY, MAX_RUN_SPEED, GROUND_ACCEL, GROUND_DECEL, AIR_ACCEL,
    AIR_DECEL, JUMP_V0, PLAYER_W, PLAYER_H, TILE_SIZE, anySolidRow_wEdge,
    anySolidCol_wEdge, inpRJ]

end Platformer

namespace Dash

@[simp]
lemma move_dashing (k : Keys) (p : Player) : (move k p).dashing = p.dashing := by
  simp [move, apply_ite Player.dashing]

@[simp]
lemma move_dashCooldown (k : Keys) (p : Player) :
    (move k p).dashCooldown = p.dashCooldown := by
  simp [move, apply_ite Player.dashCooldown]

@[simp]
lemma jumpStep_dashing (k : Keys) (p : Player) : (jumpStep k p).dashing = p.dashing := by
  simp [jumpStep, apply_ite Player.dashing]

@[simp]
lemma jumpStep_dashCooldown (k : Keys) (p : Player) :
    (jumpStep k p).dashCooldown = p.dashCooldown := by
  simp [jumpStep, apply_ite Player.dashCooldown]

@[simp]
lemma gravity_dashing (p : Player) : (gravity p).dashing = p.dashing := by
  simp [gravity, apply_ite Player.dashing]

@[simp]
lemma gravity_dashCooldown (p : Player) : (gravity p).dashCooldown = p.dashCooldown := by
  simp [gravity, apply_ite Player.dashCooldown]

@[simp]
lemma integrate_dashing (p : Player) : (integrate p).dashing = p.dashing := rfl

@[simp]
lemma integrate_dashCooldown (p : Player) : (integrate p).dashCooldown = p.dashCooldown := rfl

@[simp]
lemma floorCollide_dashing (p : Player) : (floorCollide p).dashing = p.dashing := by
  simp [floorCollide, apply_ite Player.dashing]

@[simp]
lemma floorCollide_dashCooldown (p : Player) :
    (floorCollide p).dashCooldown = p.dashCooldown := by
  simp [floorCollide, apply_ite Player.dashCooldown]

@[simp]
lemma bounds_dashing (p : Player) : (bounds p).dashing = p.dashing := rfl

@[simp]
lemma bounds_dashCooldown (p : Player) : (bounds p).dashCooldown = p.dashCooldown := rfl

lemma dashStart_dashing (sq : ℚ → ℚ) (k : Keys) (p : Player) :
    (dashStart sq k p).dashing =
      if p.dashing = false ∧ p.dashCooldown ≤ 0 ∧ k.dash = true then true
      else p.dashing := by
  unfold dashStart
  split_ifs <;> rfl

lemma dashStart_dashCooldown (sq : ℚ → ℚ) (k : Keys) (p : Player) :
    (dashStart sq k p).dashCooldown =
      if p.dashing = false ∧ p.dashCooldown ≤ 0 ∧ k.dash = true then
        (if p.onGround = true then 45 / 100 else 65 / 100)
      else p.dashCooldown := by
  unfold dashStart
  split_ifs <;> rfl

lemma dashUpdate_dashing (p : Player) :
    (dashUpdate p).dashing =
      if p.dashing = true then (if 0 < p.dashTimer - DT then p.dashing else false)
      else p.dashing := by
  simp [dashUpdate, apply_ite Player.dashing]

lemma dashUpdate_dashCooldown (p : Player) :
    (dashUpdate p).dashCooldown =
      if p.dashing = true then p.dashCooldown
      else if 0 < p.dashCooldown then p.dashCooldown - DT
      else p.dashCooldown := by
  simp [dashUpdate, apply_ite Player.dashCooldown]

lemma step_dash_inv (sq : ℚ → ℚ) (k : Keys) (p : Player)
    (h : p.dashing = true → 0 < p.dashCooldown) :
    (step sq k p).dashing = true → 0 < (step sq k p).dashCooldown := by
  intro hd
  have hstepd : (step sq k p).dashing =
      (dashUpdate (dashStart sq k (gravity (jumpStep k (move k p))))).dashing := by
    simp [step]
  have hstepc : (step sq k p).dashCooldown =
      (dashUpdate (dashStart sq k (gravity (jumpStep k (move k p))))).dashCooldown := by
    simp [step]
  have hqinv : (dashStart sq k (gravity (jumpStep k (move k p)))).dashing = true →
      0 < (dashStart sq k (gravity (jumpStep k (move k p)))).dashCooldown := by
    intro hqd
    rw [dashStart_dashing] at hqd
    rw [dashStart_dashCooldown]
    by_cases hcond : (gravity (jumpStep k (move k p))).dashing = false ∧
        (gravity (jumpStep k (move k p))).dashCooldown ≤ 0 ∧ k.dash = true
    · rw [if_pos hcond]
      split_ifs <;> norm_num
    · rw [if_neg hcond] at hqd
      rw [if_neg hcond]
      simp only [gravity_dashing, jumpStep_dashing, move_dashing] at hqd
      simp only [gravity_dashCooldown, jumpStep_dashCooldown, move_dashCooldown]
      exact h hqd
  rw [hstepd] at hd
  rw [hstepc]
  by_cases hqd : (dashStart sq k (gravity (jumpStep k (move k p)))).dashing = true
  · rw [dashUpdate_dashCooldown, if_pos hqd]
    exact hqinv hqd
  · rw [dashUpdate_dashing, if_neg hqd] at hd
    exact absurd hd hqd

lemma runD_dash_inv (sq : ℚ → ℚ) (l : List Keys) :
    ∀ p : Player, (p.dashing = true → 0 < p.dashCooldown) →
      ((runD sq p l).dashing = true → 0 < (runD sq p l).dashCooldown) := by
  induction l with
  | nil => intro p h; exact h
  | cons k l ih => intro p h; exact ih _ (step_dash_inv sq k p h)

end Dash

namespace Platformer

/-- C1: at the jump gate of Player::update (main.cpp lines 148-154), whenever
the buffer timer is positive and the body is grounded or within coyote time,
the gate sets velocity.y = JUMP_V0, clears onGround and zeroes both timers
(and the buffer is still zero when the update commits); a press while
airborne with both timers expired fires no jump that tick; and over any run
in which jump is pressed during at most one tick, the gate fires at most
once. -/
theorem jump_gate_buffered_once :
    (∀ (tile : ℤ → ℤ → ℕ) (inp : Input) (dt : ℚ) (s : Player),
        gateOpen (gateState inp dt s) →
          (jumpGate (gateState inp dt s)).velocity.y = JUMP_V0 ∧
          (jumpGate (gateState inp dt s)).onGround = false ∧
          (jumpGate (gateState inp dt s)).jumpBufferTimer = 0 ∧
          (jumpGate (gateState inp dt s)).coyoteTimer = 0 ∧
          (updateWith tile inp dt s).jumpBufferTimer = 0) ∧
    (∀ (inp : Input) (dt : ℚ) (s : Player),
        inp.jump = true → s.onGround = false → s.jumpBufferTimer ≤ 0 →
          s.coyoteTimer ≤ 0 → firesAt inp dt s = false) ∧
    (∀ (tile : ℤ → ℤ → ℕ) (dt : ℚ) (s : Player) (l : List Input),
        s.jumpBufferTimer ≤ 0 → l.countP (fun i => i.jump) ≤ 1 →
          countFires tile dt s l ≤ 1) := by
  refine ⟨?_, ?_, ?_⟩
  · intro tile inp dt s h
    rw [updateWith_jumpBufferTimer, if_pos h, jumpGate_of_open h]
    exact ⟨rfl, rfl, rfl, rfl, rfl⟩
  · intro inp dt s hj hog hb hc
    have hc' : ¬(0 < s.coyoteTimer) := not_lt.2 hc
    simp [firesAt, gateOpen, hog, hc']
  · intro tile dt s l hb hcount
    exact countFires_le_one tile dt l s hb hcount

/-- Witness for C1: a jump pressed at rest on the ground opens the gate and
launches with JUMP_V0; a press in mid air with expired timers fires nothing;
a two-tick run with one press fires at most once. -/
theorem jump_gate_buffered_once_witness :
    gateOpen (gateState inpJ FIXED_DT restS) ∧
    (jumpGate (gateState inpJ FIXED_DT restS)).velocity.y = JUMP_V0 ∧
    firesAt inpJ FIXED_DT sAir = false ∧
    countFires getTile FIXED_DT restS [inpJ, inpNone] ≤ 1 := by
  have hopen : gateOpen (gateState inpJ FIXED_DT restS) := by
    norm_num [gateOpen, gateState, bufferSet, horiz, tickTimers, inpJ, restS,
      MAX_RUN_SPEED, GROUND_ACCEL, GROUND_DECEL, AIR_ACCEL, AIR_DECEL, FIXED_DT]
  refine ⟨hopen, (jump_gate_buffered_once.1 getTile inpJ FIXED_DT restS hopen).1,
    jump_gate_buffered_once.2.1 inpJ FIXED_DT sAir rfl rfl le_rfl le_rfl,
    jump_gate_buffered_once.2.2 getTile FIXED_DT restS [inpJ, inpNone] le_rfl (by decide)⟩

/-- C2: whenever the downward sweep of Player::update finds a solid covered
column at the landing row (with the body falling and the single-tick fall
distance at most one tile height), the update snaps the candidate Y to
bottom * TILE_SIZE - PLAYER_H, so the lower edge ends exactly on (never
strictly below) the tile boundary, zeroes velocity.y, sets onGround and
refreshes the coyote timer. -/
theorem landing_snap_no_tunneling (tile : ℤ → ℤ → ℕ) (inp : Input) (dt : ℚ)
    (s s5 : Player) (hs5 : s5 = gravityStep dt (jumpGate (gateState inp dt s)))
    (hdown : 0 < s5.velocity.y)
    (hfall : s5.velocity.y * dt ≤ (TILE_SIZE : ℚ))
    (hsolid : anySolidRow tile (leftCol dt s5) (rightCol dt s5) (bottomRow dt s5) = true) :
    (updateWith tile inp dt s).position.y =
      ((bottomRow dt s5 * TILE_SIZE - PLAYER_H : ℤ) : ℚ) ∧
    (updateWith tile inp dt s).position.y + (PLAYER_H : ℚ) ≤
      ((bottomRow dt s5 * TILE_SIZE : ℤ) : ℚ) ∧
    (updateWith tile inp dt s).velocity.y = 0 ∧
    (updateWith tile inp dt s).onGround = true ∧
    (updateWith tile inp dt s).coyoteTimer = 1 / 10 := by
  subst hs5
  obtain ⟨h1, h2, h3, h4⟩ :=
    collide_of_snap tile dt (gravityStep dt (jumpGate (gateState inp dt s))) hdown hsolid
  have hu : updateWith tile inp dt s =
      deriveState (collide tile dt (gravityStep dt (jumpGate (gateState inp dt s)))) := rfl
  rw [hu]
  refine ⟨?_, ?_, ?_, ?_, ?_⟩
  · rw [deriveState_position]
    exact h1
  · rw [deriveState_position, h1]
    push_cast
    linarith
  · rw [deriveState_velocity]
    exact h2
  · rw [deriveState_onGround]
    exact h3
  · rw [deriveState_coyoteTimer]
    exact h4

/-- Witness for C2: a body half a tile above the solid bottom row of the
baked-in level lands within one tick and ends exactly on the boundary. -/
theorem landing_snap_no_tunneling_witness :
    0 < (gravityStep FIXED_DT (jumpGate (gateState inpNone FIXED_DT c2S))).velocity.y ∧
    (updateWith getTile inpNone FIXED_DT c2S).velocity.y = 0 ∧
    (updateWith getTile inpNone FIXED_DT c2S).onGround = true ∧
    (updateWith getTile inpNone FIXED_DT c2S).position.y + (PLAYER_H : ℚ) ≤
      ((bottomRow FIXED_DT (gravityStep FIXED_DT (jumpGate (gateState inpNone FIXED_DT c2S))) *
          TILE_SIZE : ℤ) : ℚ) := by
  have hlit : gravityStep FIXED_DT (jumpGate (gateState inpNone FIXED_DT c2S)) =
      ⟨⟨100, 415 / 2⟩, ⟨0, 35⟩, PlayerState.Fall, false, 0, 0⟩ := by
    norm_num [gravityStep, jumpGate, gateOpen, gateState, bufferSet, horiz, tickTimers,
      GRAVITY, FIXED_DT, MAX_RUN_SPEED, GROUND_ACCEL, GROUND_DECEL, AIR_ACCEL, AIR_DECEL,
      inpNone, c2S]
  have hdown : 0 < (gravityStep FIXED_DT (jumpGate (gateState inpNone FIXED_DT c2S))).velocity.y := by
    rw [hlit]
    norm_num
  have hfall : (gravityStep FIXED_DT (jumpGate (gateState inpNone FIXED_DT c2S))).velocity.y *
      FIXED_DT ≤ (TILE_SIZE : ℚ) := by
    rw [hlit]
    norm_num [FIXED_DT, TILE_SIZE]
  have hsolid : anySolidRow getTile
      (leftCol FIXED_DT (gravityStep FIXED_DT (jumpGate (gateState inpNone FIXED_DT c2S))))
      (rightCol FIXED_DT (gravityStep FIXED_DT (jumpGate (gateState inpNone FIXED_DT c2S))))
      (bottomRow FIXED_DT (gravityStep FIXED_DT (jumpGate (gateState inpNone FIXED_DT c2S)))) =
      true := by
    rw [hlit]
    have e1 : leftCol FIXED_DT
        (⟨⟨100, 415 / 2⟩, ⟨0, 35⟩, PlayerState.Fall, false, 0, 0⟩ : Player) = 6 := by
      norm_num [leftCol, newPosX, cint, TILE_SIZE, FIXED_DT]
    have e2 : rightCol FIXED_DT
        (⟨⟨100, 415 / 2⟩, ⟨0, 35⟩, PlayerState.Fall, false, 0, 0⟩ : Player) = 7 := by
      norm_num [rightCol, newPosX, cint, TILE_SIZE, PLAYER_W, FIXED_DT]
    have e3 : bottomRow FIXED_DT
        (⟨⟨100, 415 / 2⟩, ⟨0, 35⟩, PlayerState.Fall, false, 0, 0⟩ : Player) = 15 := by
      norm_num [bottomRow, newPosY, cint, TILE_SIZE, PLAYER_H, FIXED_DT]
    rw [e1, e2, e3]
    decide
  obtain ⟨h1, h2, h3, h4, h5⟩ :=
    landing_snap_no_tunneling getTile inpNone FIXED_DT c2S
      (gravityStep FIXED_DT (jumpGate (gateState inpNone FIXED_DT c2S))) rfl hdown hfall hsolid
  exact ⟨hdown, h3, h4, h2⟩

/-- C3 (violated by the code): walking off the wEdge platform leaves the
committed state with onGround still true while velocity.y = GRAVITY * dt is
not zero, because Player::update never clears onGround when the downward
sweep finds no support. -/
theorem stale_onGround_breaks_invariant :
    (run wEdge FIXED_DT sE0 [inpR, inpR, inpR]).onGround = true ∧
    (run wEdge FIXED_DT sE0 [inpR, inpR, inpR]).velocity.y = GRAVITY * FIXED_DT ∧
    (run wEdge FIXED_DT sE0 [inpR, inpR, inpR]).velocity.y ≠ 0 := by
  rw [runE3]
  norm_num [GRAVITY, FIXED_DT]

/-- C5 (violated by the code): after the body walks off the wEdge platform at
tick T = 2 (its last grounded tick), a jump pressed five ticks later fires,
as the spec says; but a jump pressed seven ticks later, with the coyote
timer already expired at 0, also fires (through the stale onGround flag)
and launches with JUMP_V0, contradicting the claim that it does not. -/
theorem coyote_window_not_enforced :
    firesAt inpRJ FIXED_DT (run wEdge FIXED_DT sE0 [inpR, inpR, inpR, inpR, inpR, inpR]) =
      true ∧
    (run wEdge FIXED_DT sE0 [inpR, inpR, inpR, inpR, inpR, inpR, inpR, inpR]).coyoteTimer =
      0 ∧
    (run wEdge FIXED_DT sE0 [inpR, inpR, inpR, inpR, inpR, inpR, inpR, inpR]).onGround =
      true ∧
    firesAt inpRJ FIXED_DT
      (run wEdge FIXED_DT sE0 [inpR, inpR, inpR, inpR, inpR, inpR, inpR, inpR]) = true ∧
    (updateWith wEdge inpRJ FIXED_DT
      (run wEdge FIXED_DT sE0 [inpR, inpR, inpR, inpR, inpR, inpR, inpR, inpR])).velocity.y =
      JUMP_V0 + GRAVITY * FIXED_DT := by
  rw [runE6, runE8]
  refine ⟨firesE_T5, rfl, rfl, firesE_T7, ?_⟩
  rw [tickE9J]
  norm_num [JUMP_V0, GRAVITY, FIXED_DT]

/-- C4 (violated by the code): with velocity.x = 10, grounded and no key
held, one main.cpp update applies the full GROUND_DECEL step without the
sign-change clamp, ending at velocity.x = -110/3 < 0 — the deceleration
overshoots zero. -/
theorem decel_overshoot_main :
    decelS.velocity.x = 10 ∧
    (update inpNone FIXED_DT decelS).velocity.x = -110 / 3 ∧
    (update inpNone FIXED_DT decelS).velocity.x < 0 := by
  have h1 : anySolidRow getTile 6 7 15 = true := by decide
  have h2 : anySolidCol getTile 13 14 6 = false := by decide
  have he : (update inpNone FIXED_DT decelS).velocity.x = -110 / 3 := by
    norm_num [update, updateWith, gateState, bufferSet, horiz, tickTimers, jumpGate,
      gateOpen, gravityStep, collide, deriveState, newPosX, newPosY, bottomRow, leftCol,
      rightCol, cint, FIXED_DT, GRAVITY, MAX_RUN_SPEED, GROUND_ACCEL, GROUND_DECEL,
      AIR_ACCEL, AIR_DECEL, JUMP_V0, PLAYER_W, PLAYER_H, TILE_SIZE, h1, h2, inpNone, decelS]
  refine ⟨rfl, he, ?_⟩
  rw [he]
  norm_num

/-- C6: the rest state on solid ground with no input is a fixed point of one
tick of Player::update against the baked-in level: position is unchanged and
velocity ends at (0, 0) again. -/
theorem rest_state_fixed_point :
    (update inpNone FIXED_DT restS).position = restS.position ∧
    (update inpNone FIXED_DT restS).velocity = ⟨0, 0⟩ := by
  have h1 : anySolidRow getTile 6 7 15 = true := by decide
  norm_num [update, updateWith, gateState, bufferSet, horiz, tickTimers, jumpGate,
    gateOpen, gravityStep, collide, deriveState, newPosX, newPosY, bottomRow, leftCol,
    rightCol, cint, FIXED_DT, GRAVITY, MAX_RUN_SPEED, GROUND_ACCEL, GROUND_DECEL,
    AIR_ACCEL, AIR_DECEL, JUMP_V0, PLAYER_W, PLAYER_H, TILE_SIZE, h1, inpNone, restS]

/-- C7: getTile returns solid (1) for every out-of-range coordinate pair and
LEVEL_DATA[y * LEVEL_WIDTH + x] for every in-range pair; being a total Lean
function, it never fails. -/
theorem getTile_total_boundary :
    (∀ x y : ℤ, (x < 0 ∨ y < 0 ∨ LEVEL_WIDTH ≤ x ∨ LEVEL_HEIGHT ≤ y) → getTile x y = 1) ∧
    (∀ x y : ℤ, 0 ≤ x → x < LEVEL_WIDTH → 0 ≤ y → y < LEVEL_HEIGHT →
      getTile x y = LEVEL_DATA (y * LEVEL_WIDTH + x).toNat) := by
  constructor
  · intro x y h
    unfold getTile
    exact if_pos h
  · intro x y h1 h2 h3 h4
    unfold getTile
    have h5 : ¬(x < 0 ∨ y < 0 ∨ LEVEL_WIDTH ≤ x ∨ LEVEL_HEIGHT ≤ y) := by
      simp only [LEVEL_WIDTH, LEVEL_HEIGHT] at *
      omega
    exact if_neg h5

/-- Witness for C7: the out-of-range query (-1, 0) is solid and the in-range
query (3, 15) reads LEVEL_DATA. -/
theorem getTile_total_boundary_witness :
    getTile (-1) 0 = 1 ∧ getTile 3 15 = LEVEL_DATA (15 * LEVEL_WIDTH + 3).toNat := by
  refine ⟨getTile_total_boundary.1 (-1) 0 (Or.inl (by norm_num)), ?_⟩
  exact getTile_total_boundary.2 3 15 (by norm_num) (by norm_num [LEVEL_WIDTH])
    (by norm_num) (by norm_num [LEVEL_HEIGHT])

end Platformer

namespace Dash

/-- C8 (amended): every camera update moves the position one tenth of the way
toward the target, so the new position lies in the closed interval between
the previous position and the target; no clamp to world bounds is applied. -/
theorem camera_step_between (c t : ℚ) :
    min c t ≤ cameraStep c t ∧ cameraStep c t ≤ max c t := by
  unfold cameraStep
  rcases le_total c t with h | h
  · rw [min_eq_left h, max_eq_right h]
    constructor <;> linarith
  · rw [min_eq_right h, max_eq_left h]
    constructor <;> linarith

/-- Counterexample for C8: with the player resting at x = 0 (inside the world
[0, 1024]) and the camera at 0, one update step puts the camera at -24,
outside [0, worldSize - viewportSize] = [0, 544]: the code never clamps. -/
theorem camera_unclamped_counterexample :
    cameraStep 0 (cameraTarget 0) = -24 ∧ ¬(0 ≤ cameraStep 0 (cameraTarget 0)) := by
  norm_num [cameraStep, cameraTarget]

/-- C9 (amended): the loops of game.cpp, dash.cpp, parallax.cpp and enemy.cpp
clamp the measured frame time to 0.25 s before adding it, so the amount added
to the accumulator per display frame is at most 0.25. -/
theorem accumulate_clamped_bound (acc frameTime : ℚ) :
    accumulateClamped acc frameTime - acc ≤ 1 / 4 := by
  unfold accumulateClamped frameClamp
  split_ifs with h
  · norm_num
  · linarith [not_lt.1 h]

/-- Counterexample for C9: the accumulator step of main.cpp (and
fullgame.cpp) adds the raw frame time, so a one-second stall adds 1 > 0.25
to the accumulator. -/
theorem accumulate_unclamped_counterexample :
    accumulateUnclamped 0 1 - 0 = 1 ∧ ¬(accumulateUnclamped 0 1 - 0 ≤ 1 / 4) := by
  norm_num [accumulateUnclamped]

/-- C10: in every state reachable from the dash demo's initial state, for any
interpretation of sqrt, dashing = true implies dashCooldown > 0: the cooldown
is set to 0.45 or 0.65 s when a dash starts and is never decremented while
dashing, so the dash-start guard can never admit a new dash mid-dash. -/
theorem dash_cooldown_invariant (sq : ℚ → ℚ) (l : List Keys) :
    (runD sq init l).dashing = true → 0 < (runD sq init l).dashCooldown := by
  apply runD_dash_inv
  intro h
  exact absurd h (by decide)

/-- Witness for C10: pressing dash with right held on the first tick leaves
the player dashing with a strictly positive cooldown. -/
theorem dash_cooldown_invariant_witness :
    (runD id init [kDashR]).dashing = true ∧ 0 < (runD id init [kDashR]).dashCooldown := by
  have h1 : move kDashR init = ⟨240, 220, 40, 0, true, false, 0, 0, 0, 0⟩ := by
    norm_num [move, init, kDashR, DT]
  have h2 : jumpStep kDashR (⟨240, 220, 40, 0, true, false, 0, 0, 0, 0⟩ : Player) =
      ⟨240, 220, 40, 0, true, false, 0, 0, 0, 0⟩ := by
    norm_num [jumpStep, kDashR]
  have h3 : gravity (⟨240, 220, 40, 0, true, false, 0, 0, 0, 0⟩ : Player) =
      ⟨240, 220, 40, 0, true, false, 0, 0, 0, 0⟩ := by
    norm_num [gravity]
  have h4 : dashStart id kDashR (⟨240, 220, 40, 0, true, false, 0, 0, 0, 0⟩ : Player) =
      ⟨240, 220, 40, 0, true, true, 16 / 100, 45 / 100, 1, 0⟩ := by
    norm_num [dashStart, kDashR]
  have h5 : dashUpdate (⟨240, 220, 40, 0, true, true, 16 / 100, 45 / 100, 1, 0⟩ : Player) =
      ⟨240, 220, 480, 0, true, true, 16 / 100 - 1 / 60, 45 / 100, 1, 0⟩ := by
    norm_num [dashUpdate, DT]
  have h : (runD id init [kDashR]).dashing = true := by
    rw [show runD id init [kDashR] = step id kDashR init from rfl]
    rw [show step id kDashR init =
      bounds (floorCollide (integrate (dashUpdate (dashStart id kDashR
        (gravity (jumpStep kDashR (move kDashR init))))))) from rfl]
    rw [h1, h2, h3, h4, h5]
    simp
  exact ⟨h, dash_cooldown_invariant id [kDashR] h⟩

end Dash
